import Mathlib

/-!
Verification of the ATEX zone-calculation application (`src/app.py`).

The program is a Streamlit app whose computational core is:

* a static step table `ZONE_RADIUS_TABLE` mapping a dilution factor to a
  base radius, scanned in listed order with inclusive comparison
  (`get_zone_radius`);
* a pure calculator `calculate_zones` that computes the dilution factor
  `D = leakRate / ventilationRate`, looks up the base radius, applies
  multiplicative corrections for gas group, LEL, volume, temperature and
  pressure, derives the three zone radii and rounds them;
* a submit handler that looks a gas name up in the gas table and appends a
  scenario record to the session list;
* a results loop that merges each scenario record with its computed result
  via a Python dict merge, and a PDF download handler that creates a
  temporary file and removes it after a successful read.

Python floats are modelled as rational numbers; Python's `round` (banker's
rounding, round half to even) is modelled exactly by `pyRound`.  Fallible
operations (float division, the pandas `.iloc[0]` lookup, PDF generation
and file reads) are modelled with `Except` or explicit outcome flags.
-/

/-- Python's `round` on a number with zero decimals: round half to even. -/
def pyRound (x : ℚ) : ℤ :=
  let n := ⌊x⌋
  let frac := x - n
  if frac < 1/2 then n
  else if 1/2 < frac then n + 1
  else if n % 2 = 0 then n else n + 1

/-- Python's `round(x, nd)`: round to `nd` decimal places, half to even. -/
def roundTo (nd : ℕ) (x : ℚ) : ℚ :=
  (pyRound (x * 10 ^ nd) : ℚ) / 10 ^ nd

/-- One row of `ZONE_RADIUS_TABLE` in `src/app.py`: an upper threshold for
the dilution factor (`none` models the `float("inf")` sentinel) and the base
radius used when the dilution factor does not exceed the threshold. -/
structure TableRow where
  D_max : Option ℚ
  radius : ℚ
  deriving DecidableEq, Repr

/-- The static table `ZONE_RADIUS_TABLE` of `src/app.py`, in the listed
order (ascending thresholds). -/
def ZONE_RADIUS_TABLE : List TableRow :=
  [⟨some (1/100), 1/2⟩,
   ⟨some (1/10), 1⟩,
   ⟨some 1, 3⟩,
   ⟨some 10, 5⟩,
   ⟨none, 8⟩]

/-- The comparison `D <= row["D_max"]` of `src/app.py`, where the threshold
`none` models `float("inf")` (every float is `<=` infinity). -/
def leD (D : ℚ) : Option ℚ → Bool
  | none => true
  | some m => decide (D ≤ m)

/-- The `for` loop of `get_zone_radius`: scan the rows in order and return
the radius of the first row whose threshold `D` does not exceed; past the
end of the table return the default `0.5`. -/
def getZoneRadiusAux (D : ℚ) : List TableRow → ℚ
  | [] => 1/2
  | r :: rs => if leD D r.D_max then r.radius else getZoneRadiusAux D rs

/-- `get_zone_radius` of `src/app.py`. -/
def get_zone_radius (D : ℚ) : ℚ :=
  getZoneRadiusAux D ZONE_RADIUS_TABLE

/-- A scenario record, as built by the submit handler of `src/app.py`
(dict keys "Senaryo", "Gaz", "Grup", "LEL", "Kaçak Tipi", "Kaçak Debisi",
"Kaçak Süresi", "Havalandırma Debisi", "Havalandırma Tipi", "Hacim",
"Sıcaklık", "Basınç", "Not").  Numeric fields are rationals, enumeration
fields are the strings the program uses. -/
structure Row where
  senaryo : String
  gaz : String
  grup : String
  lel : ℚ
  kacakTipi : String
  kacakDebisi : ℚ
  kacakSuresi : ℚ
  havalandirmaDebisi : ℚ
  havalandirmaTipi : String
  hacim : ℚ
  sicaklik : ℚ
  basinc : ℚ
  notu : String
  deriving DecidableEq, Repr

/-- The result dict returned by `calculate_zones`: the three zone radii
(keys "Zone 0 Yarıçapı (m)", "Zone 1 Yarıçapı (m)", "Zone 2 Yarıçapı (m)")
and the dilution factor (key "Seyrelme Faktörü (D)"). -/
structure ZoneResult where
  zone0 : ℚ
  zone1 : ℚ
  zone2 : ℚ
  d : ℚ
  deriving DecidableEq, Repr

/-- The error raised by Python when `row["Kaçak Debisi"] /
row["Havalandırma Debisi"]` divides by zero. -/
inductive CalcError where
  | divideByZero
  deriving DecidableEq, Repr

/-- `calculate_zones` of `src/app.py`, line by line.  Division is the only
fallible operation: Python raises `ZeroDivisionError` when the ventilation
rate is zero, modelled by the `Except` error. -/
def calculate_zones (row : Row) : Except CalcError ZoneResult :=
  let zone0 : Bool := row.kacakTipi == "Sürekli"
  if row.havalandirmaDebisi = 0 then .error .divideByZero else
  let D := row.kacakDebisi / row.havalandirmaDebisi
  let base1 := get_zone_radius D
  let base2 :=
    if row.grup == "IIC" then base1 * (12/10)
    else if row.grup == "IIB" then base1 * (11/10)
    else base1
  let base3 := if row.lel < 2 then base2 * (11/10) else base2
  let base4 := if row.hacim < 10 then base3 * (8/10) else base3
  let base5 := if row.sicaklik > 40 then base4 * (105/100) else base4
  let base6 := if row.basinc > 12/10 then base5 * (11/10) else base5
  let zone0_radius := if zone0 then base6 * (3/10) else 0
  let zone1_radius := if !zone0 then base6 * (7/10) else base6 * (7/10)
  let zone2_radius := base6
  .ok ⟨roundTo 2 zone0_radius, roundTo 2 zone1_radius,
       roundTo 2 zone2_radius, roundTo 4 D⟩

/-! ### Helper lemmas about rounding and the step table -/

/-- The `pyRound` of a rational never falls below its floor. -/
lemma floor_le_pyRound (x : ℚ) : ⌊x⌋ ≤ pyRound x := by
  simp only [pyRound]
  split_ifs <;> omega

/-- The `pyRound` of a rational never exceeds its floor plus one. -/
lemma pyRound_le_floor_add_one (x : ℚ) : pyRound x ≤ ⌊x⌋ + 1 := by
  simp only [pyRound]
  split_ifs <;> omega

/-- Banker's rounding is monotone. -/
lemma pyRound_mono {x y : ℚ} (h : x ≤ y) : pyRound x ≤ pyRound y := by
  rcases lt_or_ge ⌊x⌋ ⌊y⌋ with hf | hf
  · calc pyRound x ≤ ⌊x⌋ + 1 := pyRound_le_floor_add_one x
    _ ≤ ⌊y⌋ := by omega
    _ ≤ pyRound y := floor_le_pyRound y
  · have hfe : ⌊x⌋ = ⌊y⌋ := le_antisymm (Int.floor_le_floor h) hf
    have hfr : x - (⌊x⌋ : ℚ) ≤ y - (⌊y⌋ : ℚ) := by
      rw [hfe]; linarith
    simp only [pyRound]
    split_ifs <;> first | omega | (exfalso; linarith)

/-- Rounding to a fixed number of decimal places is monotone. -/
lemma roundTo_mono (nd : ℕ) {x y : ℚ} (h : x ≤ y) : roundTo nd x ≤ roundTo nd y := by
  unfold roundTo
  have h10 : (0:ℚ) < 10 ^ nd := by positivity
  have hm := pyRound_mono (mul_le_mul_of_nonneg_right h h10.le)
  exact (div_le_div_iff_of_pos_right h10).mpr (by exact_mod_cast hm)

/-- Every radius the step table can produce is positive. -/
lemma get_zone_radius_pos (D : ℚ) : 0 < get_zone_radius D := by
  simp only [get_zone_radius, ZONE_RADIUS_TABLE, getZoneRadiusAux, leD]
  split_ifs <;> norm_num

/-- Rounding zero gives zero. -/
lemma roundTo_zero (nd : ℕ) : roundTo nd 0 = 0 := by
  norm_num [roundTo, pyRound]

/-- Shape of a successful run of `calculate_zones`: there is a positive
fully corrected base radius `R` from which all three zone radii derive. -/
lemma calculate_zones_ok (row : Row) (hv : row.havalandirmaDebisi ≠ 0) :
    ∃ R : ℚ,
      calculate_zones row =
        .ok ⟨roundTo 2 (if row.kacakTipi == "Sürekli" then R * (3/10) else 0),
             roundTo 2 (R * (7/10)), roundTo 2 R,
             roundTo 4 (row.kacakDebisi / row.havalandirmaDebisi)⟩ ∧
      0 < R := by
  refine ⟨(let D := row.kacakDebisi / row.havalandirmaDebisi
           let base1 := get_zone_radius D
           let base2 :=
             if row.grup == "IIC" then base1 * (12/10)
             else if row.grup == "IIB" then base1 * (11/10)
             else base1
           let base3 := if row.lel < 2 then base2 * (11/10) else base2
           let base4 := if row.hacim < 10 then base3 * (8/10) else base3
           let base5 := if row.sicaklik > 40 then base4 * (105/100) else base4
           if row.basinc > 12/10 then base5 * (11/10) else base5), ?_, ?_⟩
  · simp only [calculate_zones, if_neg hv, ite_self]
  · simp only
    split_ifs <;> linarith [get_zone_radius_pos (row.kacakDebisi / row.havalandirmaDebisi)]

/-- The scenario of Example 1 of the specification (gas group IIA, LEL 5,
leak rate 10, ventilation rate 100, volume 100, temperature 20, pressure 1,
leak type Continuous), used as a concrete instance in witnesses. -/
def wRow : Row :=
  { senaryo := "Senaryo 1", gaz := "Metan", grup := "IIA", lel := 5,
    kacakTipi := "Sürekli", kacakDebisi := 10, kacakSuresi := 1,
    havalandirmaDebisi := 100, havalandirmaTipi := "Doğal",
    hacim := 100, sicaklik := 20, basinc := 1, notu := "" }

/-- The scenario of Example 2 of the specification: gas group IIC, LEL 1,
leak rate 50, ventilation rate 10, volume 5, temperature 50, pressure 1,
leak type Primary ("Birincil"). -/
def exampleRow2 : Row :=
  { senaryo := "Senaryo 2", gaz := "Hidrojen", grup := "IIC", lel := 1,
    kacakTipi := "Birincil", kacakDebisi := 50, kacakSuresi := 1,
    havalandirmaDebisi := 10, havalandirmaTipi := "Doğal",
    hacim := 5, sicaklik := 50, basinc := 1, notu := "" }

/-! ### Claim theorems -/

/-- Claim C1: the base-radius step lookup evaluates the table rows in the
listed ascending-threshold order with inclusive comparison; every `D ≤ 0.01`
gives exactly `0.5`, every `0.01 < D ≤ 0.1` gives exactly `1.0`, and the
boundary values `D = 0.01` and `D = 0.1` take the lower tier's radius. -/
theorem get_zone_radius_tiers (D : ℚ) :
    (D ≤ 1/100 → get_zone_radius D = 1/2) ∧
    (1/100 < D → D ≤ 1/10 → get_zone_radius D = 1) ∧
    get_zone_radius (1/100) = 1/2 ∧
    get_zone_radius (1/10) = 1 := by
  refine ⟨?_, ?_, ?_, ?_⟩
  · intro h
    simp only [get_zone_radius, ZONE_RADIUS_TABLE, getZoneRadiusAux, leD, decide_eq_true_eq]
    split_ifs
    all_goals linarith
  · intro h1 h2
    simp only [get_zone_radius, ZONE_RADIUS_TABLE, getZoneRadiusAux, leD, decide_eq_true_eq]
    split_ifs <;> linarith
  · norm_num [get_zone_radius, ZONE_RADIUS_TABLE, getZoneRadiusAux, leD]
  · norm_num [get_zone_radius, ZONE_RADIUS_TABLE, getZoneRadiusAux, leD]

/-- Witness for C1 at the concrete dilution factors `0.005` and `0.05`. -/
theorem get_zone_radius_tiers_witness :
    get_zone_radius (5/1000) = 1/2 ∧ get_zone_radius (5/100) = 1 :=
  ⟨(get_zone_radius_tiers (5/1000)).1 (by norm_num),
   (get_zone_radius_tiers (5/100)).2.1 (by norm_num) (by norm_num)⟩

/-- Claim C2: on the Example 2 scenario (IIC, LEL 1, leak rate 50,
ventilation 10, volume 5, temperature 50, pressure 1, leak type Primary)
the calculator returns zone radii 0.00, 3.88, 5.54 and dilution factor
5.0000, radii rounded to 2 decimals and the dilution factor to 4. -/
theorem calculate_zones_example2 :
    calculate_zones exampleRow2 = .ok ⟨0, 388/100, 554/100, 5⟩ := by
  norm_num [calculate_zones, exampleRow2, get_zone_radius, getZoneRadiusAux,
    ZONE_RADIUS_TABLE, leD, roundTo, pyRound, String.ext_iff]

/-- Claim C3: every successful run of the calculator satisfies
`zone0Radius ≤ zone1Radius ≤ zone2Radius`. -/
theorem calculate_zones_zone_order (row : Row) (res : ZoneResult)
    (h : calculate_zones row = .ok res) :
    res.zone0 ≤ res.zone1 ∧ res.zone1 ≤ res.zone2 := by
  by_cases hv : row.havalandirmaDebisi = 0
  · simp [calculate_zones, hv] at h
  · obtain ⟨R, heq, hR⟩ := calculate_zones_ok row hv
    rw [heq] at h
    injection h with h
    subst h
    constructor
    · split_ifs with ht
      · exact roundTo_mono 2 (by linarith)
      · exact roundTo_mono 2 (by linarith)
    · exact roundTo_mono 2 (by linarith)

/-- Witness for C3 at the Example 1 scenario. -/
theorem calculate_zones_zone_order_witness :
    (⟨3/10, 7/10, 1, 1/10⟩ : ZoneResult).zone0 ≤ (⟨3/10, 7/10, 1, 1/10⟩ : ZoneResult).zone1 ∧
    (⟨3/10, 7/10, 1, 1/10⟩ : ZoneResult).zone1 ≤ (⟨3/10, 7/10, 1, 1/10⟩ : ZoneResult).zone2 :=
  calculate_zones_zone_order wRow ⟨3/10, 7/10, 1, 1/10⟩
    (by norm_num [calculate_zones, wRow, get_zone_radius, getZoneRadiusAux,
      ZONE_RADIUS_TABLE, leD, roundTo, pyRound, String.ext_iff,
      (by decide : ('A' : Char) ≠ 'C'), (by decide : ('A' : Char) ≠ 'B')])

/-- Claim C6: the calculator fails with the divide-by-zero error exactly
when the ventilation rate is zero, and is total (returns a result) whenever
the ventilation rate is nonzero, as the contract precondition guarantees. -/
theorem calculate_zones_divide_by_zero (row : Row) :
    (calculate_zones row = .error .divideByZero ↔ row.havalandirmaDebisi = 0) ∧
    (row.havalandirmaDebisi ≠ 0 → ∃ res, calculate_zones row = .ok res) := by
  have hs : row.havalandirmaDebisi ≠ 0 → ∃ res, calculate_zones row = .ok res := by
    intro hv
    obtain ⟨R, heq, _⟩ := calculate_zones_ok row hv
    exact ⟨_, heq⟩
  refine ⟨⟨?_, ?_⟩, hs⟩
  · intro h
    by_contra hv
    obtain ⟨res, heq⟩ := hs hv
    rw [heq] at h
    exact Except.noConfusion h
  · intro hv
    simp [calculate_zones, hv]

/-- Witness for C6 at the Example 1 scenario, whose ventilation rate 100 is
nonzero. -/
theorem calculate_zones_divide_by_zero_witness :
    ∃ res, calculate_zones wRow = .ok res :=
  (calculate_zones_divide_by_zero wRow).2 (by norm_num [wRow])

/-- Claim C7: the base-radius step lookup is monotone non-decreasing in the
dilution factor. -/
theorem get_zone_radius_mono (D1 D2 : ℚ) (h : D1 ≤ D2) :
    get_zone_radius D1 ≤ get_zone_radius D2 := by
  simp only [get_zone_radius, ZONE_RADIUS_TABLE, getZoneRadiusAux, leD, decide_eq_true_eq]
  split_ifs <;> linarith

/-- Witness for C7 at the concrete pair `0.01 ≤ 5`. -/
theorem get_zone_radius_mono_witness :
    get_zone_radius (1/100) ≤ get_zone_radius 5 :=
  get_zone_radius_mono (1/100) 5 (by norm_num)

/-- Claim C8: the calculator is deterministic — it is a pure function of
the scenario record, so equal inputs give equal outputs (and, being a plain
function on values, it can modify neither its input nor other state). -/
theorem calculate_zones_deterministic (r1 r2 : Row) (h : r1 = r2) :
    calculate_zones r1 = calculate_zones r2 := by
  rw [h]

/-- Witness for C8 at the Example 1 scenario. -/
theorem calculate_zones_deterministic_witness :
    calculate_zones wRow = calculate_zones wRow :=
  calculate_zones_deterministic wRow wRow rfl

/-- Claim C4: changing only the leak type leaves `zone1Radius`,
`zone2Radius` and the dilution factor unchanged (also on the error path);
the leak type gates only `zone0Radius`, which is the rounded `0.3 × R` of
the corrected base radius `R` for "Sürekli" (Continuous) and exactly `0`
for any other leak type ("Birincil" / "İkincil"). -/
theorem calculate_zones_leak_type_gates_zone0 (r : Row) (t : String) :
    (calculate_zones { r with kacakTipi := t }).map (fun res => (res.zone1, res.zone2, res.d)) =
      (calculate_zones r).map (fun res => (res.zone1, res.zone2, res.d)) ∧
    (∀ res, calculate_zones { r with kacakTipi := t } = .ok res →
      (t ≠ "Sürekli" → res.zone0 = 0) ∧
      (t = "Sürekli" →
        ∃ R : ℚ, 0 < R ∧ res.zone2 = roundTo 2 R ∧ res.zone0 = roundTo 2 (R * (3/10)))) := by
  by_cases hv : r.havalandirmaDebisi = 0
  · constructor
    · simp [calculate_zones, hv]
    · intro res h
      simp [calculate_zones, hv] at h
  · have hv2 : ({ r with kacakTipi := t } : Row).havalandirmaDebisi ≠ 0 := hv
    constructor
    · simp only [calculate_zones, if_neg hv, if_neg hv2, ite_self]
      simp [Except.map]
    · intro res h
      obtain ⟨R, heq, hR⟩ := calculate_zones_ok { r with kacakTipi := t } hv2
      rw [heq] at h
      injection h with h
      subst h
      constructor
      · intro ht
        simp [beq_iff_eq, ht, roundTo_zero]
      · intro ht
        exact ⟨R, hR, rfl, by simp [beq_iff_eq, ht]⟩

/-- Witness for C4: the Example 1 scenario with its leak type replaced by
"Birincil" (Primary) has zone-0 radius exactly zero. -/
theorem calculate_zones_leak_type_witness :
    (⟨0, 7/10, 1, 1/10⟩ : ZoneResult).zone0 = 0 :=
  ((calculate_zones_leak_type_gates_zone0 wRow "Birincil").2 ⟨0, 7/10, 1, 1/10⟩
      (by norm_num [calculate_zones, wRow, get_zone_radius, getZoneRadiusAux,
        ZONE_RADIUS_TABLE, leD, roundTo, pyRound, String.ext_iff,
        (by decide : ('A' : Char) ≠ 'C'), (by decide : ('A' : Char) ≠ 'B')])).1
    (by decide)

/-! ### Gas lookup and the submit handler -/

/-- One row of the gas database `gazlar.csv` (columns `isim`, `grup`,
`LEL`), as exposed by the gas database collaborator. -/
structure GasRow where
  isim : String
  grup : String
  lel : ℚ
  deriving DecidableEq, Repr

/-- The pandas selection `gazlar[gazlar["isim"] == gaz_adi].iloc[0]` of
`src/app.py`: keep the rows whose `isim` equals the requested name and take
the first; `none` models the exception `.iloc[0]` raises on an empty
selection. -/
def lookupGas (gazlar : List GasRow) (name : String) : Option GasRow :=
  (gazlar.filter (fun g => g.isim == name)).head?

/-- The values read from the scenario form when the submit button fires. -/
structure FormInput where
  gazAdi : String
  leakType : String
  leakRate : ℚ
  leakDuration : ℚ
  ventilationRate : ℚ
  ventilationType : String
  volume : ℚ
  temp : ℚ
  pressure : ℚ
  scenarioName : String
  notes : String
  deriving DecidableEq, Repr

/-- The scenario dict the submit handler of `src/app.py` appends, built
from the resolved gas row and the form values. -/
def mkScenarioRow (gaz : GasRow) (inp : FormInput) : Row :=
  { senaryo := inp.scenarioName, gaz := inp.gazAdi, grup := gaz.grup,
    lel := gaz.lel, kacakTipi := inp.leakType, kacakDebisi := inp.leakRate,
    kacakSuresi := inp.leakDuration, havalandirmaDebisi := inp.ventilationRate,
    havalandirmaTipi := inp.ventilationType, hacim := inp.volume,
    sicaklik := inp.temp, basinc := inp.pressure, notu := inp.notes }

/-- The failure of the gas-name lookup (the spec's `NotFoundError`; in the
program it surfaces as the exception raised by `.iloc[0]` on an empty
selection, aborting the handler before any append). -/
inductive SubmitError where
  | notFound
  deriving DecidableEq, Repr

/-- The `if submit:` handler of `src/app.py`: resolve the gas name, then
append the scenario dict to the session list.  A failed lookup aborts the
handler, so the list is not extended and nothing downstream runs. -/
def submitScenario (gazlar : List GasRow) (scenarios : List Row) (inp : FormInput) :
    Except SubmitError (List Row) :=
  match lookupGas gazlar inp.gazAdi with
  | none => .error .notFound
  | some gaz => .ok (scenarios ++ [mkScenarioRow gaz inp])

/-- Claim C5: a gas name matching no row of the table makes the lookup
fail, and scenario creation is rejected: the handler errors out instead of
returning an extended scenario list, so the calculator (which only ever
runs on stored scenarios) is never invoked for that name. -/
theorem submit_unknown_gas_rejected (gazlar : List GasRow) (scenarios : List Row)
    (inp : FormInput) (h : ∀ g ∈ gazlar, g.isim ≠ inp.gazAdi) :
    lookupGas gazlar inp.gazAdi = none ∧
    submitScenario gazlar scenarios inp = .error .notFound := by
  have hf : gazlar.filter (fun g => g.isim == inp.gazAdi) = [] :=
    List.filter_eq_nil_iff.mpr (fun g hg => by simp [h g hg])
  have hl : lookupGas gazlar inp.gazAdi = none := by
    simp [lookupGas, hf]
  exact ⟨hl, by simp [submitScenario, hl]⟩

/-- The form values used by the C5 witness: the gas name "Propan" is not in
the one-row table used there. -/
def wInput : FormInput :=
  { gazAdi := "Propan", leakType := "Sürekli", leakRate := 10,
    leakDuration := 1, ventilationRate := 100, ventilationType := "Doğal",
    volume := 100, temp := 20, pressure := 1, scenarioName := "Senaryo 1",
    notes := "" }

/-- Witness for C5 on a concrete one-row gas table that does not contain
"Propan". -/
theorem submit_unknown_gas_rejected_witness :
    lookupGas [⟨"Metan", "IIA", 5⟩] "Propan" = none ∧
    submitScenario [⟨"Metan", "IIA", 5⟩] [] wInput = .error .notFound :=
  submit_unknown_gas_rejected [⟨"Metan", "IIA", 5⟩] [] wInput
    (by intro g hg; simp at hg; subst hg; decide)

/-! ### The PDF report download handler and its temporary file -/

/-- The state of the temporary-file storage: the names of the temporary
files that currently exist, and a counter from which the next fresh name is
drawn. -/
structure FsState where
  files : List ℕ
  next : ℕ
  deriving DecidableEq, Repr

/-- Collaborator failures on the PDF path: a document generation failure
inside `pdf.output` (the spec's `RenderError`), or a failure while opening
or reading the file back (the spec's `ExportError`). -/
inductive PdfError where
  | renderError
  | readError
  deriving DecidableEq, Repr

/-- `create_pdf_report` of `src/app.py`, effect-level model:
`tempfile.NamedTemporaryFile(delete=False)` first creates the temporary
file, then `pdf.output(tmp.name)` writes the document — when generation
fails (oracle `genOk = false`) the exception propagates with the file
already created — and on success `tmp.name` is returned. -/
def create_pdf_report (fs : FsState) (genOk : Bool) : Except PdfError ℕ × FsState :=
  let path := fs.next
  let fs1 : FsState := ⟨path :: fs.files, fs.next + 1⟩
  if genOk then (.ok path, fs1) else (.error .renderError, fs1)

/-- `os.remove(pdf_path)`. -/
def os_remove (fs : FsState) (p : ℕ) : FsState :=
  ⟨fs.files.erase p, fs.next⟩

/-- The "PDF Raporu İndir" button handler of `src/app.py`: generate the
report, open and read it for the download button (oracle `readOk`), then
`os.remove(pdf_path)`.  There is no try/finally, so the removal runs only
when generation and the read both succeed; any exception propagates with
the temporary file left in place. -/
def downloadHandler (fs : FsState) (genOk readOk : Bool) :
    Except PdfError Unit × FsState :=
  match create_pdf_report fs genOk with
  | (.error e, fs1) => (.error e, fs1)
  | (.ok path, fs1) =>
    if readOk then (.ok (), os_remove fs1 path)
    else (.error .readError, fs1)

/-- Counterexample to claim C9 as stated: starting from an empty temporary
directory, a generation failure (and likewise a read failure) leaves the
temporary file `0` behind — it is not deleted on every path. -/
theorem download_temp_file_leak_cex :
    (downloadHandler ⟨[], 0⟩ false true).2.files = [0] ∧
    (downloadHandler ⟨[], 0⟩ true false).2.files = [0] ∧
    (downloadHandler ⟨[], 0⟩ false true).2.files ≠ [] := by
  refine ⟨rfl, rfl, ?_⟩
  decide

/-- Amended claim C9: when document generation and the read both succeed
the handler deletes the temporary file (the directory is restored exactly);
when either step fails the temporary file remains. -/
theorem download_temp_file_success_cleanup (fs : FsState) :
    (downloadHandler fs true true).1 = .ok () ∧
    (downloadHandler fs true true).2.files = fs.files ∧
    (downloadHandler fs false true).2.files = fs.next :: fs.files ∧
    (downloadHandler fs true false).2.files = fs.next :: fs.files := by
  refine ⟨rfl, ?_, rfl, rfl⟩
  simp [downloadHandler, create_pdf_report, os_remove]

/-! ### The results loop and the dict merge -/

/-- A Python dict value in this program: a string or a number. -/
inductive Val where
  | vstr (s : String)
  | vnum (q : ℚ)
  deriving DecidableEq, Repr

/-- The scenario dict of the submit handler as an association list in its
insertion order (the 13 keys of `src/app.py` lines 66–80). -/
def rowEntries (r : Row) : List (String × Val) :=
  [("Senaryo", .vstr r.senaryo), ("Gaz", .vstr r.gaz), ("Grup", .vstr r.grup),
   ("LEL", .vnum r.lel), ("Kaçak Tipi", .vstr r.kacakTipi),
   ("Kaçak Debisi", .vnum r.kacakDebisi), ("Kaçak Süresi", .vnum r.kacakSuresi),
   ("Havalandırma Debisi", .vnum r.havalandirmaDebisi),
   ("Havalandırma Tipi", .vstr r.havalandirmaTipi), ("Hacim", .vnum r.hacim),
   ("Sıcaklık", .vnum r.sicaklik), ("Basınç", .vnum r.basinc), ("Not", .vstr r.notu)]

/-- The result dict of `calculate_zones` as an association list in its
insertion order (the 4 keys of `src/app.py` lines 115–120). -/
def resEntries (z : ZoneResult) : List (String × Val) :=
  [("Zone 0 Yarıçapı (m)", .vnum z.zone0), ("Zone 1 Yarıçapı (m)", .vnum z.zone1),
   ("Zone 2 Yarıçapı (m)", .vnum z.zone2), ("Seyrelme Faktörü (D)", .vnum z.d)]

/-- Key lookup in an association-list dict. -/
def lookupVal (d : List (String × Val)) (k : String) : Option Val :=
  (d.find? (fun p => p.1 == k)).map Prod.snd

/-- The Python dict merge `{**a, **b}` on association lists with unique
keys: the keys of `a` in their order, each with `b`'s value where the key
repeats in `b`, followed by the keys of `b` not present in `a`, in their
order. -/
def dictMerge (a b : List (String × Val)) : List (String × Val) :=
  a.map (fun p => (p.1, (lookupVal b p.1).getD p.2)) ++
    b.filter (fun p => (lookupVal a p.1).isNone)

/-- The results loop of `src/app.py` (lines 163–167): for every stored
scenario compute the zones and merge the scenario dict with the result dict
into a fresh record; the stored scenario list itself is returned untouched. -/
def displayResults (scenarios : List Row) :
    Except CalcError (List (List (String × Val))) × List Row :=
  (scenarios.mapM (fun row =>
    (calculate_zones row).map (fun res => dictMerge (rowEntries row) (resEntries res))),
   scenarios)

/-- Claim C10: the merged record is the scenario record with every field
unchanged plus exactly the four result fields — the key sets are disjoint,
so the merge is a plain append and every scenario key still looks up its
original value — and building the results leaves the stored scenario list
as it was. -/
theorem results_merge_preserves_scenario (scenarios : List Row) (row : Row)
    (res : ZoneResult) (h : calculate_zones row = .ok res) :
    (displayResults scenarios).2 = scenarios ∧
    (displayResults [row]).1 = .ok [dictMerge (rowEntries row) (resEntries res)] ∧
    dictMerge (rowEntries row) (resEntries res) = rowEntries row ++ resEntries res ∧
    (∀ k v, lookupVal (rowEntries row) k = some v →
      lookupVal (dictMerge (rowEntries row) (resEntries res)) k = some v) ∧
    List.Disjoint ((rowEntries row).map Prod.fst) ((resEntries res).map Prod.fst) := by
  have hm : dictMerge (rowEntries row) (resEntries res) = rowEntries row ++ resEntries res := by
    simp [dictMerge, lookupVal, rowEntries, resEntries, List.find?]
  refine ⟨rfl, ?_, hm, ?_, ?_⟩
  · simp [displayResults, List.mapM, List.mapM.loop, h, Except.map]
  · intro k v hk
    rw [hm]
    unfold lookupVal at hk ⊢
    rw [List.find?_append]
    rcases hfind : (rowEntries row).find? (fun p => p.1 == k) with _ | p
    · rw [hfind] at hk; simp at hk
    · rw [hfind] at hk ⊢
      simpa using hk
  · simp [rowEntries, resEntries]

/-- Witness for C10 at the Example 1 scenario and its computed result. -/
theorem results_merge_witness :
    (displayResults [wRow]).2 = [wRow] :=
  (results_merge_preserves_scenario [wRow] wRow ⟨3/10, 7/10, 1, 1/10⟩
      (by norm_num [calculate_zones, wRow, get_zone_radius, getZoneRadiusAux,
        ZONE_RADIUS_TABLE, leD, roundTo, pyRound, String.ext_iff,
        (by decide : ('A' : Char) ≠ 'C'), (by decide : ('A' : Char) ≠ 'B')])).1
